import Mathlib

/-!
# Storefront UI: a shallow embedding of the view layer, the remote service client
and the navigation shell

Sources embedded here: `src/components/Checkout.js`, `src/components/Cart.js`,
`src/components/ProductList.js`, `src/components/Header.js`, `src/pages/Register.js`,
`src/services/api.js`, `src/App.js`.

Modelling conventions.

* JavaScript numbers that the views add or print (prices, totals) are exact integers (`Int`);
  ids are natural numbers.
* An object whose fields the views do not compute with (a request body, the user returned by the
  remote service, a payment token) is a finite list of named primitive fields, `JsObject`.
* A rendered JSX tree is an `Element`; the only event handlers in the sources that dispatch
  synchronously are `onClick` handlers of the form `() => dispatch(a)`, so an element carries an
  optional `Action`.
* An `async` function is a state-passing computation over a `World` (the requests sent so far, the
  actions dispatched so far, the console) that either returns a value or throws; the HTTP
  library is a parameter (`Transport`) answering each request with a response or a rejection.
-/

namespace Storefront

/-! ## Data model -/

/-- A primitive JavaScript value stored in an object field. -/
inductive JsPrim where
  | str (s : String)
  | num (n : Int)
  deriving DecidableEq, Repr

/-- A plain JavaScript object: its fields in insertion order. -/
abbrev JsObject := List (String × JsPrim)

/-- Field access `o.k`; `none` stands for `undefined`. -/
def JsObject.get (o : JsObject) (k : String) : Option JsPrim :=
  (o.find? (fun f => f.1 == k)).map Prod.snd

/-- A product as the product list view reads it (`id`, `name`, `description`, `price`);
`description = none` stands for an absent (`undefined`) field. -/
structure Product where
  id : Nat
  name : String
  description : Option String
  price : Int
  deriving DecidableEq, Repr

/-- A cart entry as the cart and checkout views read it (`id`, `name`, `price`). -/
structure CartItem where
  id : Nat
  name : String
  price : Int
  deriving DecidableEq, Repr

/-- The `user` slice, read as `state.user.user` (Header.js line 6). -/
structure UserState where
  user : Option JsObject
  deriving DecidableEq, Repr

/-- The `products` slice, read as `state.products.products` (ProductList.js line 8). -/
structure ProductsState where
  products : List Product
  deriving DecidableEq, Repr

/-- The `cart` slice, read as `state.cart.items` (Cart.js line 6, Checkout.js line 6). -/
structure CartState where
  items : List CartItem
  deriving DecidableEq, Repr

/-- The store snapshot: three independent slices. -/
structure State where
  user : UserState
  products : ProductsState
  cart : CartState
  deriving DecidableEq, Repr

/-- The named update operations that views hand to `dispatch`. The action creators are imported
from `redux/actions/*`; the views only pass their results on. -/
inductive Action where
  | setUser (user : JsObject)
  | setProducts (products : List Product)
  | addToCart (item : CartItem)
  | removeFromCart (id : Nat)
  deriving DecidableEq, Repr

/-! ## Rendered output -/

/-- A rendered JSX tree. `node` is a host element (`div`, `h1`, `p`, `button`, ...) with its `key`
and its `onClick` handler, if any; `num` is a number child, printed in decimal; `link` is a router
`Link`; `form` is the registration form (its `onSubmit` is `Register.handleSubmit`), `input` one of
its controlled inputs; `stripeCheckout` is the embedded payment widget with the props Checkout.js
passes (its `token` callback is `Checkout.handleToken`). -/
inductive Element where
  | text (s : String)
  | num (n : Int)
  | node (tag : String) (key : Option Nat) (onClick : Option Action) (children : List Element)
  | link (toPath : String) (children : List Element)
  | form (children : List Element)
  | input (type value placeholder : String)
  | stripeCheckout (stripeKey : String) (amount : Int) (name : String)
      (billingAddress shippingAddress : Bool)

mutual
/-- The text a browser shows for an element: the concatenation of its text and number leaves. -/
def Element.textContent : Element → String
  | .text s => s
  | .num n => toString n
  | .node _ _ _ cs => textContentList cs
  | .link _ cs => textContentList cs
  | .form cs => textContentList cs
  | .input _ _ _ => ""
  | .stripeCheckout _ _ _ _ _ => ""
/-- Text of a list of sibling elements, left to right. -/
def textContentList : List Element → String
  | [] => ""
  | c :: cs => c.textContent ++ textContentList cs
end

mutual
/-- Every element of a tree, the root included, in document order. -/
def Element.descendants : Element → List Element
  | .text s => [.text s]
  | .num n => [.num n]
  | .node t k h cs => .node t k h cs :: descendantsList cs
  | .link p cs => .link p cs :: descendantsList cs
  | .form cs => .form cs :: descendantsList cs
  | .input t v p => [.input t v p]
  | .stripeCheckout k a n b s => [.stripeCheckout k a n b s]
/-- Every element of a forest, in document order. -/
def descendantsList : List Element → List Element
  | [] => []
  | c :: cs => c.descendants ++ descendantsList cs
end

/-- The direct children of an element. -/
def Element.children : Element → List Element
  | .node _ _ _ cs => cs
  | .link _ cs => cs
  | .form cs => cs
  | _ => []

/-- The tag of a host element. -/
def Element.tag? : Element → Option String
  | .node t _ _ _ => some t
  | _ => none

/-- The `key` of a host element. -/
def Element.key? : Element → Option Nat
  | .node _ k _ _ => k
  | _ => none

/-- The action an element dispatches when it is clicked, if it has an `onClick` handler. -/
def Element.onClick? : Element → Option Action
  | .node _ _ h _ => h
  | _ => none

/-- The direct children of an element that are host elements with the given tag. -/
def Element.childrenTagged (e : Element) (tag : String) : List Element :=
  e.children.filter (fun c => c.tag? == some tag)

/-- All `onClick` actions anywhere in a tree, in document order. -/
def clickActions (e : Element) : List Action :=
  e.descendants.filterMap Element.onClick?

/-- A JSX child `{v}` for a possibly undefined string: `undefined` renders nothing. -/
def jsxString : Option String → List Element
  | none => []
  | some s => [.text s]

/-- A JSX child `{v}` for a possibly undefined primitive. -/
def jsxPrim : Option JsPrim → List Element
  | none => []
  | some (.str s) => [.text s]
  | some (.num n) => [.num n]

/-- What one entry of a list view shows: its `key`, the texts of its headings (`h2`), the texts of
its paragraphs (`p`), and its buttons, each with its label and the action a click dispatches. -/
structure EntryView where
  key : Option Nat
  headings : List String
  paragraphs : List String
  buttons : List (String × Option Action)
  deriving DecidableEq, Repr

/-- Read an entry off a rendered element. -/
def Element.entryView (e : Element) : EntryView :=
  ⟨e.key?,
   (e.childrenTagged "h2").map Element.textContent,
   (e.childrenTagged "p").map Element.textContent,
   (e.childrenTagged "button").map (fun b => (b.textContent, b.onClick?))⟩

/-! ## Checkout.js -/

/-- Checkout.js line 7: `cartItems.reduce((total, item) => total + item.price, 0)`. -/
def Checkout.totalAmount (cartItems : List CartItem) : Int :=
  cartItems.foldl (fun total item => total + item.price) 0

/-- Checkout.js lines 5-28: the rendered checkout view. -/
def Checkout (state : State) : Element :=
  let cartItems := state.cart.items
  let totalAmount := Checkout.totalAmount cartItems
  .node "div" none none
    [ .node "h1" none none [.text "Checkout"],
      .node "p" none none [.text "Total: $", .num totalAmount],
      .stripeCheckout "your-publishable-stripe-key" (totalAmount * 100) "E-Commerce Platform"
        true true ]

/-- Cart.js lines 16-20: the entry rendered for one cart item. -/
def Cart.entry (item : CartItem) : Element :=
  .node "div" (some item.id) none
    [ .node "h2" none none [.text item.name],
      .node "p" none none [.text "$", .num item.price],
      .node "button" none (some (.removeFromCart item.id)) [.text "Remove"] ]

/-- Cart.js line 13: the placeholder shown for an empty cart. -/
def Cart.emptyNotice : Element :=
  .node "p" none none [.text "Cart is empty"]

/-- Cart.js lines 5-25: the rendered cart view. -/
def Cart (state : State) : Element :=
  let cartItems := state.cart.items
  .node "div" none none
    (.node "h1" none none [.text "Your Cart"] ::
      (if cartItems.length = 0 then [Cart.emptyNotice] else cartItems.map Cart.entry))

/-! ## ProductList.js (rendering) -/

/-- ProductList.js lines 22-27: the entry rendered for one product. -/
def ProductList.entry (product : Product) : Element :=
  .node "div" (some product.id) none
    [ .node "h2" none none [.text product.name],
      .node "p" none none (jsxString product.description),
      .node "p" none none [.text "$", .num product.price],
      .node "button" none none [.text "Add to Cart"] ]

/-- ProductList.js lines 19-30: the rendered product list. -/
def ProductList (state : State) : Element :=
  let products := state.products.products
  .node "div" none none (products.map ProductList.entry)

/-! ## Header.js -/

/-- Header.js lines 5-21: the rendered header. -/
def Header (state : State) : Element :=
  let user := state.user.user
  .node "header" none none
    [ .node "nav" none none
        [ .link "/" [.text "Home"],
          .link "/cart" [.text "Cart"],
          match user with
          | some u => .node "span" none none (jsxPrim (u.get "name"))
          | none => .link "/login" [.text "Login"] ] ]

/-! ## Asynchronous handlers -/

/-- HTTP method of a request. -/
inductive Method where
  | GET
  | POST
  deriving DecidableEq, Repr

/-- An HTTP request as handed to the HTTP library: method, full URL, optional JSON body. -/
structure Request where
  method : Method
  url : String
  body : Option JsObject
  deriving DecidableEq, Repr

/-- The response object the HTTP library resolves with; `data` is the decoded body. -/
structure Response (δ : Type) where
  data : δ
  status : Nat
  deriving DecidableEq, Repr

/-- The HTTP library together with the remote service: each request is answered by a response
or rejected with an error of type `ε`. -/
abbrev Transport (δ ε : Type) := Request → Except ε (Response δ)

/-- What an asynchronous handler can affect: the requests sent, the actions handed to
`dispatch`, whether `preventDefault` was called on the event, and the console. -/
structure World where
  requests : List Request
  dispatched : List Action
  defaultPrevented : Bool
  console : List JsObject
  deriving DecidableEq, Repr

/-- The world before a handler runs. -/
def World.init : World := ⟨[], [], false, []⟩

/-- An `async` function: given the transport and the world so far, it returns a value or throws
(a rejected promise), and leaves a new world. An awaited rejection is rethrown (`bind`). -/
def Async (δ ε α : Type) : Type := Transport δ ε → World → Except ε α × World

/-- Returning a value. -/
def Async.pure {δ ε α : Type} (a : α) : Async δ ε α :=
  fun _ w => (.ok a, w)

/-- Sequencing with `await`: a rejection skips the rest of the function body. -/
def Async.bind {δ ε α β : Type} (m : Async δ ε α) (f : α → Async δ ε β) : Async δ ε β :=
  fun net w =>
    match m net w with
    | (.ok a, w1) => f a net w1
    | (.error e, w1) => (.error e, w1)

instance {δ ε : Type} : Monad (Async δ ε) where
  pure := Async.pure
  bind := Async.bind

/-- The call `axios.post(url, data)`: one request is sent, the transport answers. -/
def axios.post {δ ε : Type} (url : String) (data : JsObject) : Async δ ε (Response δ) :=
  fun net w =>
    let request : Request := ⟨.POST, url, some data⟩
    (net request, { w with requests := w.requests ++ [request] })

/-- The call `axios.get(url)`: one request without a body is sent, the transport answers. -/
def axios.get {δ ε : Type} (url : String) : Async δ ε (Response δ) :=
  fun net w =>
    let request : Request := ⟨.GET, url, none⟩
    (net request, { w with requests := w.requests ++ [request] })

/-- The call `dispatch(action)` of the store hook. -/
def dispatch {δ ε : Type} (action : Action) : Async δ ε Unit :=
  fun _ w => (.ok (), { w with dispatched := w.dispatched ++ [action] })

/-- The call `e.preventDefault()`. -/
def preventDefault {δ ε : Type} : Async δ ε Unit :=
  fun _ w => (.ok (), { w with defaultPrevented := true })

/-- The call `console.log(value)`. -/
def console.log {δ ε : Type} (value : JsObject) : Async δ ε Unit :=
  fun _ w => (.ok (), { w with console := w.console ++ [value] })

/-! ## services/api.js -/

/-- Line 3 of api.js: the base URL. -/
def API_URL : String := "https://api.example.com"

/-- Lines 5-8 of api.js: `login`. The body is the object literal with the fields `email` and
`password`, in this order. -/
def login {δ ε : Type} (email password : String) : Async δ ε δ := do
  let response ← axios.post (API_URL ++ "/auth/login")
    [("email", .str email), ("password", .str password)]
  return response.data

/-- Lines 10-13 of api.js: `register`. -/
def register {δ ε : Type} (user : JsObject) : Async δ ε δ := do
  let response ← axios.post (API_URL ++ "/auth/register") user
  return response.data

/-- Lines 15-18 of api.js: `fetchProducts`. -/
def fetchProducts {δ ε : Type} : Async δ ε δ := do
  let response ← axios.get (API_URL ++ "/products")
  return response.data

/-! ## Register.js -/

/-- The three `useState` cells of the registration page (Register.js lines 7-9). -/
structure Register.Form where
  email : String
  password : String
  name : String
  deriving DecidableEq, Repr

/-- Initial form state: three empty strings. -/
def Register.Form.init : Register.Form := ⟨"", "", ""⟩

/-- The object literal built from the form at Register.js line 14, fields `email`, `password`,
`name` in this order. -/
def Register.Form.toObject (form : Register.Form) : JsObject :=
  [("email", .str form.email), ("password", .str form.password), ("name", .str form.name)]

/-- Register.js lines 12-16: the submit handler. The user is an object returned by the remote
service. -/
def Register.handleSubmit {ε : Type} (form : Register.Form) : Async JsObject ε Unit := do
  preventDefault
  let user ← register form.toObject
  dispatch (.setUser user)

/-- Register.js lines 18-28: the rendered registration page. -/
def Register (form : Register.Form) : Element :=
  .node "div" none none
    [ .node "h1" none none [.text "Register"],
      .form
        [ .input "text" form.name "Name",
          .input "email" form.email "Email",
          .input "password" form.password "Password",
          .node "button" none none [.text "Register"] ] ]

/-! ## ProductList.js (mount effect) and Checkout.js (token callback) -/

/-- ProductList.js lines 11-14: `getProducts`, started by the mount effect (line 16). -/
def ProductList.getProducts {ε : Type} : Async (List Product) ε Unit := do
  let products ← fetchProducts
  dispatch (.setProducts products)

/-- Checkout.js lines 9-12: the payment token is only logged. -/
def Checkout.handleToken {δ ε : Type} (token : JsObject) : Async δ ε Unit :=
  console.log token

/-! ## The store -/

/-- The store applies a reducer to the snapshot for each dispatched action, in order. The
reducer is a parameter here. -/
def Store.dispatchAll (reducer : State → Action → State) (state : State)
    (actions : List Action) : State :=
  actions.foldl reducer state

/-- Modelled from the spec: the root reducer of the store (the files under `redux/` that the
views import, `redux/store` and `redux/actions/*`, are not among the sources). Per the
Application Store contract: `setUser(user)` replaces the `user` slice wholesale,
`setProducts(products)` replaces the `products` slice wholesale, `addToCart(item)` appends `item`
to the cart sequence, `removeFromCart(id)` removes all cart entries with matching id and is a
no-op if the id is absent; the three slices are independent. -/
def rootReducer (state : State) : Action → State
  | .setUser user => { state with user := ⟨some user⟩ }
  | .setProducts products => { state with products := ⟨products⟩ }
  | .addToCart item => { state with cart := ⟨state.cart.items ++ [item]⟩ }
  | .removeFromCart id =>
      { state with cart := ⟨state.cart.items.filter (fun item => item.id != id)⟩ }

/-! ## App.js: the navigation shell -/

/-- The page components App.js routes to. -/
inductive View where
  | Home
  | Login
  | Register
  | CartPage
  | Checkout
  deriving DecidableEq, Repr

/-- A `Route` element: its `path`, whether it carries `exact`, and its `component`. -/
structure Route where
  path : String
  exact : Bool
  component : View
  deriving DecidableEq, Repr

/-- App.js lines 18-22: the children of `Switch`, in order. -/
def App.routes : List Route :=
  [ ⟨"/", true, .Home⟩,
    ⟨"/login", false, .Login⟩,
    ⟨"/register", false, .Register⟩,
    ⟨"/cart", false, .CartPage⟩,
    ⟨"/checkout", false, .Checkout⟩ ]

/-- Remove a leading pattern from a character sequence, comparing letters without regard to
ASCII case; `none` when the sequence does not begin with the pattern. -/
def dropLeading : List Char → List Char → Option (List Char)
  | s, [] => some s
  | [], _ :: _ => none
  | c :: s, d :: p => if c.toLower = d.toLower then dropLeading s p else none

/-- The router library's path matching for a literal route path (no parameters), with its
default options (not strict, not case sensitive): a trailing slash of the route path is dropped;
the pathname must begin with the path; with `exact` what follows must be nothing or one final
slash, without `exact` it must be nothing or begin a new path segment. -/
def matchPath (pathname : String) (path : String) (exact : Bool) : Bool :=
  let pattern := if path.data.getLast? = some '/' then path.data.dropLast else path.data
  match dropLeading pathname.data pattern with
  | none => false
  | some rest =>
      if exact then decide (rest = [] ∨ rest = ['/'])
      else decide (rest = [] ∨ rest.head? = some '/')

/-- The router library's `Switch`: the first child route that matches the pathname is selected;
when none matches nothing is rendered. -/
def Switch (routes : List Route) (pathname : String) : Option View :=
  (routes.find? (fun route => matchPath pathname route.path route.exact)).map Route.component

/-- App.js lines 12-27: the view selected for a pathname. -/
def App (pathname : String) : Option View :=
  Switch App.routes pathname

/-- The routes of App.js that match a pathname. -/
def App.matching (pathname : String) : List Route :=
  App.routes.filter (fun route => matchPath pathname route.path route.exact)

/-! ## User actions on the views -/

/-- The views whose source is given, each with the local state it renders from. -/
inductive Screen where
  | header
  | productList
  | cart
  | checkout
  | register (form : Register.Form)
  deriving DecidableEq, Repr

/-- The tree a screen renders for a store snapshot. -/
def Screen.render (state : State) : Screen → Element
  | .header => Header state
  | .productList => ProductList state
  | .cart => Cart state
  | .checkout => Checkout state
  | .register form => Register form

/-- What can happen on these views: a click on the element at a position (document order) of a
rendered screen; typing into an input of the registration form (its `onChange` only sets local
state); submitting the registration form; the mount of the product list; the payment widget
calling back with a token. -/
inductive UserAction where
  | click (screen : Screen) (index : Nat)
  | type (form : Register.Form) (value : String)
  | submit (form : Register.Form)
  | mount
  | token (value : JsObject)
  deriving DecidableEq, Repr

/-- The actions handed to `dispatch` as the effect of one user action, given the remote services
for registration and for products. -/
def dispatchedBy {ε : Type} (netU : Transport JsObject ε) (netP : Transport (List Product) ε)
    (state : State) : UserAction → List Action
  | .click screen index =>
      match (screen.render state).descendants[index]? with
      | some element => element.onClick?.toList
      | none => []
  | .type _ _ => []
  | .submit form => (Register.handleSubmit form netU World.init).2.dispatched
  | .mount => (ProductList.getProducts netP World.init).2.dispatched
  | .token value => (Checkout.handleToken value netP World.init).2.dispatched

/-! ## Example collaborators -/

/-- A product service that answers every GET request with one product, the mug of the product
list scenario, and rejects every other request. -/
def Example.productService : Transport (List Product) String :=
  fun request =>
    if request.method = .GET then .ok ⟨[⟨1, "Mug", none, 5⟩], 200⟩ else .error "rejected"

/-- A registration service that assigns the id 7 and echoes the `name` and `email` fields of the
profile it receives; it rejects a request without a body and every GET request. -/
def Example.userService : Transport JsObject String :=
  fun request =>
    match request.method, request.body with
    | .POST, some profile =>
        .ok ⟨("id", .num 7) ::
              (profile.filter (fun field => field.1 == "name" || field.1 == "email")).reverse,
            201⟩
    | _, _ => .error "rejected"

/-- A service that is down: every request is rejected. -/
def Example.offline (δ : Type) : Transport δ String :=
  fun _ => .error "offline"

/-- The registration form of the scenario: Ana, a@x.com, p. -/
def Example.anaForm : Register.Form := ⟨"a@x.com", "p", "Ana"⟩

/-- A store with no user, no products and a cart of two entries. -/
def Example.state : State :=
  ⟨⟨none⟩, ⟨[]⟩, ⟨[⟨1, "Mug", 10⟩, ⟨2, "Pen", 25⟩]⟩⟩

/-! # Theorems -/

/-! ## Lemmas on sums -/

theorem cart_entries_clickActions (items : List CartItem) :
    (descendantsList (items.map Cart.entry)).filterMap Element.onClick?
      = items.map (fun item => Action.removeFromCart item.id) := by
  induction items with
  | nil => simp [descendantsList]
  | cons x xs ih =>
    simp only [List.map_cons, descendantsList, List.filterMap_append, ih]
    simp [Cart.entry, Element.descendants, descendantsList, Element.onClick?]

theorem cart_clickActions (state : State) :
    clickActions (Cart state)
      = state.cart.items.map (fun item => Action.removeFromCart item.id) := by
  unfold clickActions Cart
  by_cases h : state.cart.items.length = 0
  · have h0 : state.cart.items = [] := List.length_eq_zero.mp h
    simp [h0, Element.descendants, descendantsList, Element.onClick?, Cart.emptyNotice]
  · simp only [h, if_false, Element.descendants, descendantsList, List.filterMap_cons,
      Element.onClick?, List.filterMap_append, cart_entries_clickActions]
    simp

/-- C3: under the store contract, `removeFromCart(id)` leaves exactly the cart entries whose id
differs from `id`, in their original order, and does not touch the `user` and `products` slices;
when no entry has that id (in particular when the cart is empty) the snapshot is unchanged. In the
Cart view the Remove button of each entry dispatches `removeFromCart` with that entry's id. -/
theorem removeFromCart_removes_matching (state : State) (id : Nat) :
    (rootReducer state (.removeFromCart id)).cart.items
        = state.cart.items.filter (fun item => decide (item.id ≠ id))
    ∧ (∀ item, item ∈ (rootReducer state (.removeFromCart id)).cart.items
        ↔ item ∈ state.cart.items ∧ item.id ≠ id)
    ∧ List.Sublist (rootReducer state (.removeFromCart id)).cart.items state.cart.items
    ∧ (rootReducer state (.removeFromCart id)).user = state.user
    ∧ (rootReducer state (.removeFromCart id)).products = state.products
    ∧ (rootReducer state (.removeFromCart id) = state
        ↔ ∀ item ∈ state.cart.items, item.id ≠ id)
    ∧ (∀ item, clickActions (Cart.entry item) = [.removeFromCart item.id])
    ∧ clickActions (Cart state)
        = state.cart.items.map (fun item => Action.removeFromCart item.id) := by
  have hfilter : (rootReducer state (.removeFromCart id)).cart.items
      = state.cart.items.filter (fun item => decide (item.id ≠ id)) := by
    show state.cart.items.filter (fun item => item.id != id) = _
    congr 1
    funext item
    by_cases h : item.id = id <;> simp [h]
  refine ⟨hfilter, ?_, ?_, rfl, rfl, ?_, ?_, cart_clickActions state⟩
  · intro item
    rw [hfilter]
    simp [List.mem_filter]
  · rw [hfilter]
    exact List.filter_sublist _
  · constructor
    · intro h item hitem
      have h1 : state.cart.items.filter (fun item => decide (item.id ≠ id))
          = state.cart.items := by
        rw [← hfilter, h]
      have h2 := (List.filter_eq_self.mp h1) item hitem
      simpa using h2
    · intro h
      have h1 : state.cart.items.filter (fun item => item.id != id) = state.cart.items := by
        rw [List.filter_eq_self]
        intro item hitem
        simpa [bne_iff_ne] using h item hitem
      cases state with
      | mk u p c =>
        cases c with
        | mk items =>
          simp only [rootReducer] at h1 ⊢
          rw [h1]
  · intro item
    simp [clickActions, Cart.entry, Element.descendants, descendantsList, Element.onClick?]

/-- Witness for C3: removing id 9 from a cart holding ids 1 and 2 changes nothing, and removing
id 1 from a cart holding ids 1, 2, 1 leaves the entry with id 2. -/
theorem removeFromCart_removes_matching_witness :
    (∀ item ∈ [(⟨1, "Mug", 5⟩ : CartItem), ⟨2, "Pen", 3⟩], item.id ≠ 9)
    ∧ rootReducer ⟨⟨none⟩, ⟨[]⟩, ⟨[⟨1, "Mug", 5⟩, ⟨2, "Pen", 3⟩]⟩⟩ (.removeFromCart 9)
        = ⟨⟨none⟩, ⟨[]⟩, ⟨[⟨1, "Mug", 5⟩, ⟨2, "Pen", 3⟩]⟩⟩
    ∧ (rootReducer ⟨⟨none⟩, ⟨[]⟩, ⟨[⟨1, "Mug", 5⟩, ⟨2, "Pen", 3⟩, ⟨1, "Mug", 5⟩]⟩⟩
        (.removeFromCart 1)).cart.items = [⟨2, "Pen", 3⟩] :=
  ⟨by decide,
   (removeFromCart_removes_matching
      ⟨⟨none⟩, ⟨[]⟩, ⟨[⟨1, "Mug", 5⟩, ⟨2, "Pen", 3⟩]⟩⟩ 9).2.2.2.2.2.1.mpr (by decide),
   by decide⟩

theorem Async.bind_eq {δ ε α β : Type} (m : Async δ ε α) (f : α → Async δ ε β) :
    (m >>= f) = Async.bind m f := rfl

theorem Async.pure_eq {δ ε α : Type} (a : α) : (pure a : Async δ ε α) = Async.pure a := rfl

theorem login_run {δ ε : Type} (net : Transport δ ε) (w : World) (email password : String) :
    login email password net w
      = ((net ⟨.POST, "https://api.example.com/auth/login",
            some [("email", .str email), ("password", .str password)]⟩).map Response.data,
         { w with requests := w.requests ++
            [⟨.POST, "https://api.example.com/auth/login",
              some [("email", .str email), ("password", .str password)]⟩] }) := by
  have hurl : API_URL ++ "/auth/login" = "https://api.example.com/auth/login" := by decide
  simp only [login, Async.bind_eq, Async.pure_eq, Async.bind, axios.post, hurl]
  cases net ⟨.POST, "https://api.example.com/auth/login",
    some [("email", .str email), ("password", .str password)]⟩ <;> rfl

theorem register_run {δ ε : Type} (net : Transport δ ε) (w : World) (user : JsObject) :
    register user net w
      = ((net ⟨.POST, "https://api.example.com/auth/register", some user⟩).map Response.data,
         { w with requests := w.requests ++
            [⟨.POST, "https://api.example.com/auth/register", some user⟩] }) := by
  have hurl : API_URL ++ "/auth/register" = "https://api.example.com/auth/register" := by decide
  simp only [register, Async.bind_eq, Async.pure_eq, Async.bind, axios.post, hurl]
  cases net ⟨.POST, "https://api.example.com/auth/register", some user⟩ <;> rfl

theorem fetchProducts_run {δ ε : Type} (net : Transport δ ε) (w : World) :
    (fetchProducts : Async δ ε δ) net w
      = ((net ⟨.GET, "https://api.example.com/products", none⟩).map Response.data,
         { w with requests := w.requests ++
            [⟨.GET, "https://api.example.com/products", none⟩] }) := by
  have hurl : API_URL ++ "/products" = "https://api.example.com/products" := by decide
  simp only [fetchProducts, Async.bind_eq, Async.pure_eq, Async.bind, axios.get, hurl]
  cases net ⟨.GET, "https://api.example.com/products", none⟩ <;> rfl

theorem handleSubmit_run {ε : Type} (net : Transport JsObject ε) (form : Register.Form) :
    Register.handleSubmit form net World.init
      = match net ⟨.POST, "https://api.example.com/auth/register", some form.toObject⟩ with
        | .ok r =>
            (.ok (), ⟨[⟨.POST, "https://api.example.com/auth/register", some form.toObject⟩],
              [.setUser r.data], true, []⟩)
        | .error e =>
            (.error e, ⟨[⟨.POST, "https://api.example.com/auth/register", some form.toObject⟩],
              [], true, []⟩) := by
  simp only [Register.handleSubmit, Async.bind_eq, Async.bind, preventDefault, register_run,
    dispatch, World.init]
  cases net ⟨.POST, "https://api.example.com/auth/register", some form.toObject⟩ <;> rfl

theorem getProducts_run {ε : Type} (net : Transport (List Product) ε) :
    ProductList.getProducts net World.init
      = match net ⟨.GET, "https://api.example.com/products", none⟩ with
        | .ok r =>
            (.ok (), ⟨[⟨.GET, "https://api.example.com/products", none⟩],
              [.setProducts r.data], false, []⟩)
        | .error e =>
            (.error e, ⟨[⟨.GET, "https://api.example.com/products", none⟩], [], false, []⟩) := by
  simp only [ProductList.getProducts, Async.bind_eq, Async.bind, fetchProducts_run, dispatch,
    World.init]
  cases net ⟨.GET, "https://api.example.com/products", none⟩ <;> rfl

/-! ## The remote service client -/

/-- C4: each operation of the remote service client sends exactly one request and returns the
`data` of the response unchanged: `login(email, password)` sends POST `<base>/auth/login` with the
body of the two fields `email` and `password`; `register(profile)` sends POST
`<base>/auth/register` with the profile as body; `fetchProducts()` sends GET `<base>/products`
without a body. A rejected request is rethrown as it is, and no second request is sent. -/
theorem api_single_round_trip {δ ε : Type} (net : Transport δ ε) (w : World)
    (email password : String) (profile : JsObject) :
    login email password net w
      = ((net ⟨.POST, "https://api.example.com/auth/login",
            some [("email", .str email), ("password", .str password)]⟩).map Response.data,
         { w with requests := w.requests ++
            [⟨.POST, "https://api.example.com/auth/login",
              some [("email", .str email), ("password", .str password)]⟩] })
    ∧ register profile net w
      = ((net ⟨.POST, "https://api.example.com/auth/register", some profile⟩).map Response.data,
         { w with requests := w.requests ++
            [⟨.POST, "https://api.example.com/auth/register", some profile⟩] })
    ∧ (fetchProducts : Async δ ε δ) net w
      = ((net ⟨.GET, "https://api.example.com/products", none⟩).map Response.data,
         { w with requests := w.requests ++
            [⟨.GET, "https://api.example.com/products", none⟩] })
    ∧ (∀ r, net ⟨.POST, "https://api.example.com/auth/login",
            some [("email", .str email), ("password", .str password)]⟩ = .ok r →
          (login email password net w).1 = .ok r.data)
    ∧ (∀ r, net ⟨.POST, "https://api.example.com/auth/register", some profile⟩ = .ok r →
          (register profile net w).1 = .ok r.data)
    ∧ (∀ r, net ⟨.GET, "https://api.example.com/products", none⟩ = .ok r →
          ((fetchProducts : Async δ ε δ) net w).1 = .ok r.data)
    ∧ (∀ e, net ⟨.POST, "https://api.example.com/auth/login",
            some [("email", .str email), ("password", .str password)]⟩ = .error e →
          (login email password net w).1 = .error e)
    ∧ (∀ e, net ⟨.POST, "https://api.example.com/auth/register", some profile⟩ = .error e →
          (register profile net w).1 = .error e)
    ∧ (∀ e, net ⟨.GET, "https://api.example.com/products", none⟩ = .error e →
          ((fetchProducts : Async δ ε δ) net w).1 = .error e)
    ∧ (login email password net w).2.requests.length = w.requests.length + 1
    ∧ (register profile net w).2.requests.length = w.requests.length + 1
    ∧ ((fetchProducts : Async δ ε δ) net w).2.requests.length = w.requests.length + 1
    ∧ (login email password net w).2.dispatched = w.dispatched
    ∧ (register profile net w).2.dispatched = w.dispatched
    ∧ ((fetchProducts : Async δ ε δ) net w).2.dispatched = w.dispatched := by
  have hl := login_run net w email password
  have hr := register_run net w profile
  have hf := @fetchProducts_run δ ε net w
  refine ⟨hl, hr, hf, ?_, ?_, ?_, ?_, ?_, ?_, ?_, ?_, ?_, ?_, ?_, ?_⟩
  · intro r h
    rw [hl, h]
    rfl
  · intro r h
    rw [hr, h]
    rfl
  · intro r h
    rw [hf, h]
    rfl
  · intro e h
    rw [hl, h]
    rfl
  · intro e h
    rw [hr, h]
    rfl
  · intro e h
    rw [hf, h]
    rfl
  · rw [hl]
    simp
  · rw [hr]
    simp
  · rw [hf]
    simp
  · rw [hl]
  · rw [hr]
  · rw [hf]

/-- Witness for C4: against a service that answers the product request with one product and
rejects every other request, `fetchProducts` returns that product list and `login` fails with
the service's error. -/
theorem api_single_round_trip_witness :
    (fetchProducts Example.productService World.init).1 = .ok [⟨1, "Mug", none, 5⟩]
    ∧ (login "a@x.com" "p" Example.productService World.init).1 = .error "rejected" :=
  ⟨(api_single_round_trip Example.productService World.init "a@x.com" "p" []).2.2.2.2.2.1
      ⟨[⟨1, "Mug", none, 5⟩], 200⟩ rfl,
   (api_single_round_trip Example.productService World.init "a@x.com" "p" []).2.2.2.2.2.2.1
      "rejected" rfl⟩

/-! ## Registration -/

/-- C5: when the remote service answers the registration request with the user `U`, submitting
the Register form sends exactly one request, POST `<base>/auth/register` with the body made of the
form's `email`, `password` and `name`, and then dispatches exactly one update, `setUser(U)`, with
`U` as returned; so the store becomes the reducer's result on `setUser(U)`, whatever the reducer.
The dispatched user depends on the form only through the service's answer: another form state
answered with the same `U` dispatches the same update, every field of the dispatched user is a
field of `U`, and if `U` carries `name` and `email` equal to the form's and no `password` then so
does the dispatched user. -/
theorem register_submit_sets_user {ε : Type} (net : Transport JsObject ε)
    (form : Register.Form) (U : JsObject) (status : Nat)
    (reducer : State → Action → State) (state : State)
    (h : net ⟨.POST, "https://api.example.com/auth/register",
          some [("email", .str form.email), ("password", .str form.password),
                ("name", .str form.name)]⟩ = .ok ⟨U, status⟩) :
    Register.handleSubmit form net World.init
      = (.ok (),
         ⟨[⟨.POST, "https://api.example.com/auth/register",
             some [("email", .str form.email), ("password", .str form.password),
                   ("name", .str form.name)]⟩],
          [.setUser U], true, []⟩)
    ∧ Store.dispatchAll reducer state (Register.handleSubmit form net World.init).2.dispatched
        = reducer state (.setUser U)
    ∧ (∀ (other : Register.Form) (status2 : Nat),
        net ⟨.POST, "https://api.example.com/auth/register", some other.toObject⟩
            = .ok ⟨U, status2⟩ →
        (Register.handleSubmit other net World.init).2.dispatched
          = (Register.handleSubmit form net World.init).2.dispatched)
    ∧ (∀ user, Action.setUser user ∈ (Register.handleSubmit form net World.init).2.dispatched →
        user = U
        ∧ (U.get "name" = some (.str form.name) → user.get "name" = some (.str form.name))
        ∧ (U.get "email" = some (.str form.email) → user.get "email" = some (.str form.email))
        ∧ (U.get "password" = none → user.get "password" = none)) := by
  have hrun := handleSubmit_run net form
  have hobj : form.toObject = [("email", .str form.email), ("password", .str form.password),
      ("name", .str form.name)] := rfl
  rw [hobj, h] at hrun
  refine ⟨hrun, ?_, ?_, ?_⟩
  · rw [hrun]
    rfl
  · intro other status2 h2
    have hrun2 := handleSubmit_run net other
    rw [h2] at hrun2
    rw [hrun, hrun2]
  · intro user hmem
    rw [hrun] at hmem
    have hu : user = U := by simpa using hmem
    subst hu
    exact ⟨rfl, id, id, id⟩

/-- Witness for C5, the spec's scenario: the form holds Ana, a@x.com and the password p; the
service assigns the id 7 and echoes name and email. The one update dispatched is `setUser` of
the user with id 7, name Ana, email a@x.com, which has no `password` field. -/
theorem register_submit_sets_user_witness :
    Example.userService ⟨.POST, "https://api.example.com/auth/register",
        some [("email", .str "a@x.com"), ("password", .str "p"), ("name", .str "Ana")]⟩
      = .ok ⟨[("id", .num 7), ("name", .str "Ana"), ("email", .str "a@x.com")], 201⟩
    ∧ (Register.handleSubmit Example.anaForm Example.userService World.init).2.dispatched
      = [.setUser [("id", .num 7), ("name", .str "Ana"), ("email", .str "a@x.com")]]
    ∧ JsObject.get [("id", .num 7), ("name", .str "Ana"), ("email", .str "a@x.com")] "password"
      = none :=
  ⟨rfl,
   congrArg (fun r => r.2.dispatched)
     (register_submit_sets_user Example.userService Example.anaForm
       [("id", .num 7), ("name", .str "Ana"), ("email", .str "a@x.com")] 201
       (fun st _ => st) Example.state rfl).1,
   by decide⟩

/-! ## Product list -/

theorem productList_entry_view (product : Product) :
    (ProductList.entry product).entryView
      = ⟨some product.id, [product.name],
          [product.description.getD "", "$" ++ toString product.price],
          [("Add to Cart", none)]⟩ := by
  cases hd : product.description <;>
    simp [Element.entryView, ProductList.entry, Element.childrenTagged, Element.children,
      List.filter, Element.tag?, Element.key?, Element.onClick?, Element.textContent,
      textContentList, jsxString, hd]

theorem productList_children_view (state : State) :
    (ProductList state).children.map Element.entryView
      = state.products.products.map (fun product =>
          ⟨some product.id, [product.name],
            [product.description.getD "", "$" ++ toString product.price],
            [("Add to Cart", none)]⟩) := by
  simp only [ProductList, Element.children, List.map_map]
  apply List.map_congr_left
  intro product _
  exact productList_entry_view product

/-- C6: when the remote service answers the product request with the list `P`, the mount
effect of ProductList sends that one request and dispatches exactly `setProducts(P)`, with `P`
unchanged and independent of the products already in the store; under the store contract the
products slice is then exactly `P` and the other slices are untouched. For every products slice the
view renders one entry per product, in order, keyed by the product id, showing the name as
heading, then the description (nothing when absent) and "$" followed by the price, and one button
"Add to Cart"; after a fetch that returns the single product Mug with id 1 and price 5 the view
renders one entry showing "Mug" and "$5". -/
theorem productList_loads_and_renders {ε : Type} (net : Transport (List Product) ε)
    (P : List Product) (status : Nat) (reducer : State → Action → State) (state : State)
    (h : net ⟨.GET, "https://api.example.com/products", none⟩ = .ok ⟨P, status⟩) :
    ProductList.getProducts net World.init
      = (.ok (), ⟨[⟨.GET, "https://api.example.com/products", none⟩],
          [.setProducts P], false, []⟩)
    ∧ Store.dispatchAll reducer state (ProductList.getProducts net World.init).2.dispatched
        = reducer state (.setProducts P)
    ∧ (Store.dispatchAll rootReducer state
          (ProductList.getProducts net World.init).2.dispatched).products.products = P
    ∧ (Store.dispatchAll rootReducer state
          (ProductList.getProducts net World.init).2.dispatched).user = state.user
    ∧ (Store.dispatchAll rootReducer state
          (ProductList.getProducts net World.init).2.dispatched).cart = state.cart
    ∧ (ProductList state).children.length = state.products.products.length
    ∧ (ProductList state).children.map Element.entryView
        = state.products.products.map (fun product =>
            ⟨some product.id, [product.name],
              [product.description.getD "", "$" ++ toString product.price],
              [("Add to Cart", none)]⟩)
    ∧ (P = [⟨1, "Mug", none, 5⟩] →
        (ProductList (Store.dispatchAll rootReducer state
            (ProductList.getProducts net World.init).2.dispatched)).children.map
              Element.entryView
          = [⟨some 1, ["Mug"], ["", "$5"], [("Add to Cart", none)]⟩]) := by
  have hrun := getProducts_run net
  rw [h] at hrun
  have hstore : Store.dispatchAll rootReducer state
      (ProductList.getProducts net World.init).2.dispatched
        = rootReducer state (.setProducts P) := by
    rw [hrun]
    rfl
  refine ⟨hrun, ?_, ?_, ?_, ?_, ?_, productList_children_view state, ?_⟩
  · rw [hrun]
    rfl
  · rw [hstore]
    rfl
  · rw [hstore]
    rfl
  · rw [hstore]
    rfl
  · simp [ProductList, Element.children]
  · intro hP
    rw [productList_children_view, hstore, hP]
    rfl

/-- Witness for C6: the product service that returns the mug. -/
theorem productList_loads_and_renders_witness :
    Example.productService ⟨.GET, "https://api.example.com/products", none⟩
      = .ok ⟨[⟨1, "Mug", none, 5⟩], 200⟩
    ∧ (ProductList.getProducts Example.productService World.init).2.dispatched
      = [.setProducts [⟨1, "Mug", none, 5⟩]]
    ∧ (ProductList (Store.dispatchAll rootReducer Example.state
          (ProductList.getProducts Example.productService World.init).2.dispatched)).children.map
            Element.entryView
      = [⟨some 1, ["Mug"], ["", "$5"], [("Add to Cart", none)]⟩] :=
  ⟨rfl,
   congrArg (fun r => r.2.dispatched)
     (productList_loads_and_renders Example.productService [⟨1, "Mug", none, 5⟩] 200
       rootReducer Example.state rfl).1,
   (productList_loads_and_renders Example.productService [⟨1, "Mug", none, 5⟩] 200
       rootReducer Example.state rfl).2.2.2.2.2.2.2 rfl⟩

/-! ## Failures of the remote service -/

/-- C7: no view catches a failure of the remote service client. When the registration request
is rejected with `e`, `Register.handleSubmit` itself fails with `e` after that single request and
dispatches nothing; when the product request is rejected with `e`, `ProductList.getProducts` fails
with `e` and dispatches nothing; in both cases the store is left as it was, whatever the reducer.
`setUser` (resp. `setProducts`) is dispatched if and only if the remote call succeeds, and then
with the data of the response. -/
theorem remote_failure_not_caught {ε : Type} (netU : Transport JsObject ε)
    (netP : Transport (List Product) ε) (form : Register.Form)
    (reducer : State → Action → State) (state : State) :
    (∀ e, netU ⟨.POST, "https://api.example.com/auth/register", some form.toObject⟩ = .error e →
        Register.handleSubmit form netU World.init
          = (.error e,
             ⟨[⟨.POST, "https://api.example.com/auth/register", some form.toObject⟩],
              [], true, []⟩)
        ∧ Store.dispatchAll reducer state
            (Register.handleSubmit form netU World.init).2.dispatched = state)
    ∧ (∀ e, netP ⟨.GET, "https://api.example.com/products", none⟩ = .error e →
        ProductList.getProducts netP World.init
          = (.error e, ⟨[⟨.GET, "https://api.example.com/products", none⟩], [], false, []⟩)
        ∧ Store.dispatchAll reducer state
            (ProductList.getProducts netP World.init).2.dispatched = state)
    ∧ ((Register.handleSubmit form netU World.init).2.dispatched ≠ []
        ↔ ∃ r, netU ⟨.POST, "https://api.example.com/auth/register", some form.toObject⟩
            = .ok r)
    ∧ ((ProductList.getProducts netP World.init).2.dispatched ≠ []
        ↔ ∃ r, netP ⟨.GET, "https://api.example.com/products", none⟩ = .ok r)
    ∧ (∀ r, netU ⟨.POST, "https://api.example.com/auth/register", some form.toObject⟩ = .ok r →
        (Register.handleSubmit form netU World.init).2.dispatched = [.setUser r.data])
    ∧ (∀ r, netP ⟨.GET, "https://api.example.com/products", none⟩ = .ok r →
        (ProductList.getProducts netP World.init).2.dispatched = [.setProducts r.data]) := by
  have hU := handleSubmit_run netU form
  have hP := getProducts_run netP
  refine ⟨?_, ?_, ?_, ?_, ?_, ?_⟩
  · intro e he
    rw [he] at hU
    rw [hU]
    exact ⟨rfl, rfl⟩
  · intro e he
    rw [he] at hP
    rw [hP]
    exact ⟨rfl, rfl⟩
  · cases hnet : netU ⟨.POST, "https://api.example.com/auth/register", some form.toObject⟩ with
    | error e =>
      rw [hnet] at hU
      rw [hU]
      simp
    | ok r =>
      rw [hnet] at hU
      rw [hU]
      simp
  · cases hnet : netP ⟨.GET, "https://api.example.com/products", none⟩ with
    | error e =>
      rw [hnet] at hP
      rw [hP]
      simp
    | ok r =>
      rw [hnet] at hP
      rw [hP]
      simp
  · intro r hr
    rw [hr] at hU
    rw [hU]
  · intro r hr
    rw [hr] at hP
    rw [hP]

/-- Witness for C7: with the service down, submitting Ana's registration fails with the
service's error, one request was sent, nothing was dispatched, and the store is as before. -/
theorem remote_failure_not_caught_witness :
    Example.offline JsObject
        ⟨.POST, "https://api.example.com/auth/register", some Example.anaForm.toObject⟩
      = .error "offline"
    ∧ Register.handleSubmit Example.anaForm (Example.offline JsObject) World.init
      = (.error "offline",
         ⟨[⟨.POST, "https://api.example.com/auth/register", some Example.anaForm.toObject⟩],
          [], true, []⟩)
    ∧ Store.dispatchAll rootReducer Example.state
        (Register.handleSubmit Example.anaForm (Example.offline JsObject)
          World.init).2.dispatched = Example.state :=
  ⟨rfl,
   (remote_failure_not_caught (Example.offline JsObject) (Example.offline (List Product))
      Example.anaForm rootReducer Example.state).1 "offline" rfl⟩

/-! ## Navigation -/

theorem matchPath_root_exact (pathname : String) :
    matchPath pathname "/" true = true ↔ pathname = "" ∨ pathname = "/" := by
  have hdata : ("/" : String).data = [Char.ofNat 47] := rfl
  have hstr : ∀ cs : List Char, pathname.data = cs ↔ pathname = String.mk cs := by
    intro cs
    constructor
    · intro h
      exact String.ext h
    · intro h
      rw [h]
  simp only [matchPath, hdata, List.getLast?_singleton, List.dropLast_single, if_true,
    dropLeading]
  have h1 : pathname.data = [] ↔ pathname = "" := hstr []
  have h2 : pathname.data = [Char.ofNat 47] ↔ pathname = "/" := hstr [Char.ofNat 47]
  simp [h1, h2]

theorem find_component_ne (routes : List Route) (f : Route → Bool) (v : View)
    (h : ∀ r ∈ routes, r.component ≠ v) :
    (routes.find? f).map Route.component ≠ some v := by
  intro hfind
  cases hr : routes.find? f with
  | none => simp [hr] at hfind
  | some r =>
    rw [hr] at hfind
    have hmem : r ∈ routes := List.mem_of_find?_eq_some hr
    exact h r hmem (by simpa using hfind)

theorem app_home_iff (pathname : String) :
    App pathname = some .Home ↔ matchPath pathname "/" true = true := by
  unfold App Switch App.routes
  by_cases h : matchPath pathname "/" true = true
  · simp [List.find?, h]
  · have hne := find_component_ne
      [⟨"/login", false, .Login⟩, ⟨"/register", false, .Register⟩,
        ⟨"/cart", false, .CartPage⟩, ⟨"/checkout", false, .Checkout⟩]
      (fun route => matchPath pathname route.path route.exact) .Home (by simp)
    have hf : matchPath pathname "/" true = false := by simpa using h
    rw [List.find?_cons_of_neg _ (by simp [hf])]
    rw [hf]
    exact ⟨fun hx => absurd hx hne, fun hx => absurd hx (by decide)⟩

/-- C8: under first-match selection each of the five paths selects one view: `/` Home, `/login`
Login, `/register` Register, `/cart` CartPage, `/checkout` Checkout; each of the five paths matches
exactly one of the five routes, and two of the five paths that select the same view are the same
path. For a (non-empty) pathname the view selected is Home exactly when the pathname is `/`. A
pathname is left without a view exactly when it matches none of the five routes (there is no
fallback route), as is the case for `/about`. -/
theorem app_routes_select (pathname : String) :
    App "/" = some .Home
    ∧ App "/login" = some .Login
    ∧ App "/register" = some .Register
    ∧ App "/cart" = some .CartPage
    ∧ App "/checkout" = some .Checkout
    ∧ (∀ p ∈ ["/", "/login", "/register", "/cart", "/checkout"], (App.matching p).length = 1)
    ∧ (∀ p ∈ ["/", "/login", "/register", "/cart", "/checkout"],
        ∀ q ∈ ["/", "/login", "/register", "/cart", "/checkout"], App p = App q → p = q)
    ∧ (pathname ≠ "" → (App pathname = some .Home ↔ pathname = "/"))
    ∧ (App pathname = none ↔ App.matching pathname = [])
    ∧ App "/about" = none := by
  refine ⟨by decide, by decide, by decide, by decide, by decide, by decide, by decide,
    ?_, ?_, by decide⟩
  · intro hne
    rw [app_home_iff, matchPath_root_exact]
    constructor
    · intro h
      cases h with
      | inl h => exact absurd h hne
      | inr h => exact h
    · intro h
      exact Or.inr h
  · unfold App Switch App.matching
    rw [Option.map_eq_none', List.find?_eq_none, List.filter_eq_nil_iff]

/-- Witness for C8: the pathname `/cart` is not empty and does not select Home. -/
theorem app_routes_select_witness :
    "/cart" ≠ "" ∧ ¬ (App "/cart" = some .Home) :=
  ⟨by decide,
   fun h => absurd (((app_routes_select "/cart").2.2.2.2.2.2.2.1 (by decide)).mp h)
     (by decide)⟩

/-! ## Which updates the views dispatch -/

theorem productList_entries_clickActions (products : List Product) :
    (descendantsList (products.map ProductList.entry)).filterMap Element.onClick? = [] := by
  induction products with
  | nil => simp [descendantsList]
  | cons x xs ih =>
    simp only [List.map_cons, descendantsList, List.filterMap_append, ih]
    cases hd : x.description <;>
      simp [ProductList.entry, Element.descendants, descendantsList, Element.onClick?,
        jsxString, hd]

theorem productList_clickActions (state : State) : clickActions (ProductList state) = [] := by
  simp [clickActions, ProductList, Element.descendants, Element.onClick?,
    productList_entries_clickActions]

theorem header_clickActions (state : State) : clickActions (Header state) = [] := by
  unfold clickActions Header
  cases hu : state.user.user with
  | none => simp [Element.descendants, descendantsList, Element.onClick?]
  | some u =>
    cases hn : JsObject.get u "name" with
    | none => simp [Element.descendants, descendantsList, Element.onClick?, jsxPrim, hn]
    | some v =>
      cases v <;>
        simp [Element.descendants, descendantsList, Element.onClick?, jsxPrim, hn]

theorem checkout_clickActions (state : State) : clickActions (Checkout state) = [] := by
  simp [clickActions, Checkout, Element.descendants, descendantsList, Element.onClick?]

theorem register_clickActions (form : Register.Form) : clickActions (Register form) = [] := by
  simp [clickActions, Register, Element.descendants, descendantsList, Element.onClick?]

theorem click_mem_clickActions (e : Element) (index : Nat) (a : Action)
    (h : a ∈ (match e.descendants[index]? with
      | some element => element.onClick?.toList
      | none => [])) : a ∈ clickActions e := by
  cases hget : e.descendants[index]? with
  | none => simp [hget] at h
  | some element =>
    rw [hget] at h
    have hmem : element ∈ e.descendants := List.getElem?_mem hget
    have ha : element.onClick? = some a := by
      simpa [Option.mem_toList] using h
    exact List.mem_filterMap.mpr ⟨element, hmem, ha⟩

theorem dispatchAll_cart_length (actions : List Action) (state : State)
    (h : ∀ a ∈ actions, ∀ item, a ≠ Action.addToCart item) :
    (Store.dispatchAll rootReducer state actions).cart.items.length
      ≤ state.cart.items.length := by
  induction actions generalizing state with
  | nil => exact Nat.le_refl _
  | cons a rest ih =>
    have hrest : ∀ b ∈ rest, ∀ item, b ≠ Action.addToCart item :=
      fun b hb => h b (List.mem_cons_of_mem _ hb)
    have hstep : (rootReducer state a).cart.items.length ≤ state.cart.items.length := by
      cases a with
      | setUser u => exact Nat.le_refl _
      | setProducts ps => exact Nat.le_refl _
      | addToCart item => exact absurd rfl (h _ (List.mem_cons_self _ _) item)
      | removeFromCart id => exact List.length_filter_le _ _
    exact Nat.le_trans (ih (rootReducer state a) hrest) hstep

theorem dispatchedBy_kinds {ε : Type} (netU : Transport JsObject ε)
    (netP : Transport (List Product) ε) (state : State) (ua : UserAction) (a : Action)
    (h : a ∈ dispatchedBy netU netP state ua) :
    (∃ P, ua = .mount ∧ a = .setProducts P)
    ∨ (∃ form U, ua = .submit form ∧ a = .setUser U)
    ∨ (∃ index item, ua = .click .cart index ∧ item ∈ state.cart.items
        ∧ a = .removeFromCart item.id) := by
  cases ua with
  | click screen index =>
    have hmem := click_mem_clickActions (screen.render state) index a h
    cases screen with
    | header => simp [Screen.render, header_clickActions] at hmem
    | productList => simp [Screen.render, productList_clickActions] at hmem
    | checkout => simp [Screen.render, checkout_clickActions] at hmem
    | register form => simp [Screen.render, register_clickActions] at hmem
    | cart =>
      rw [Screen.render, cart_clickActions] at hmem
      obtain ⟨item, hitem, rfl⟩ := List.mem_map.mp hmem
      exact Or.inr (Or.inr ⟨index, item, rfl, hitem, rfl⟩)
  | type form value => simp [dispatchedBy] at h
  | submit form =>
    have hrun := handleSubmit_run netU form
    simp only [dispatchedBy] at h
    cases hnet : netU ⟨.POST, "https://api.example.com/auth/register", some form.toObject⟩ with
    | error e =>
      rw [hnet] at hrun
      rw [hrun] at h
      simp at h
    | ok r =>
      rw [hnet] at hrun
      rw [hrun] at h
      exact Or.inr (Or.inl ⟨form, r.data, rfl, by simpa using h⟩)
  | mount =>
    have hrun := getProducts_run netP
    simp only [dispatchedBy] at h
    cases hnet : netP ⟨.GET, "https://api.example.com/products", none⟩ with
    | error e =>
      rw [hnet] at hrun
      rw [hrun] at h
      simp at h
    | ok r =>
      rw [hnet] at hrun
      rw [hrun] at h
      exact Or.inl ⟨r.data, rfl, by simpa using h⟩
  | token value =>
    simp [dispatchedBy, Checkout.handleToken, console.log, World.init] at h

/-- C10: every entry of the product list has one button, labelled "Add to Cart", without a
click handler, and no element of the product list has one; so a click anywhere in the product
list dispatches nothing and leaves the store as it was, whatever the reducer. Over all user
actions on the views (clicks, typing, submitting the registration form, the mount of the product
list, the payment callback) the only updates dispatched are `setProducts` (by the mount of the
product list), `setUser` (by the registration submit) and `removeFromCart` of the id of a cart item
(by a click in the cart); `addToCart` is never dispatched, and under the store contract no user
action leaves the cart longer than it was. -/
theorem add_to_cart_button_dispatches_nothing {ε : Type} (netU : Transport JsObject ε)
    (netP : Transport (List Product) ε) (reducer : State → Action → State) (state : State)
    (ua : UserAction) :
    (ProductList state).children.map (fun e => e.entryView.buttons)
        = state.products.products.map (fun _ => [("Add to Cart", none)])
    ∧ (∀ b ∈ (ProductList state).descendants, b.onClick? = none)
    ∧ (∀ index, dispatchedBy netU netP state (.click .productList index) = [])
    ∧ (∀ index, Store.dispatchAll reducer state
          (dispatchedBy netU netP state (.click .productList index)) = state)
    ∧ (∀ a ∈ dispatchedBy netU netP state ua,
        (∃ P, ua = .mount ∧ a = .setProducts P)
        ∨ (∃ form U, ua = .submit form ∧ a = .setUser U)
        ∨ (∃ index item, ua = .click .cart index ∧ item ∈ state.cart.items
            ∧ a = .removeFromCart item.id))
    ∧ (∀ item, Action.addToCart item ∉ dispatchedBy netU netP state ua)
    ∧ (Store.dispatchAll rootReducer state (dispatchedBy netU netP state ua)).cart.items.length
        ≤ state.cart.items.length := by
  have hkinds := dispatchedBy_kinds netU netP state
  have hnone : ∀ b ∈ (ProductList state).descendants, b.onClick? = none := by
    intro b hb
    have h := productList_clickActions state
    unfold clickActions at h
    exact (List.filterMap_eq_nil_iff.mp h) b hb
  have hclick : ∀ index, dispatchedBy netU netP state (.click .productList index) = [] := by
    intro index
    simp only [dispatchedBy, Screen.render]
    cases hget : (ProductList state).descendants[index]? with
    | none => rfl
    | some element =>
      have hmem : element ∈ (ProductList state).descendants := List.getElem?_mem hget
      simp [hnone element hmem]
  have hnoadd : ∀ (u : UserAction) (a : Action), a ∈ dispatchedBy netU netP state u →
      ∀ item, a ≠ Action.addToCart item := by
    intro u a ha item heq
    subst heq
    rcases hkinds u _ ha with ⟨P, _, h⟩ | ⟨form, U, _, h⟩ | ⟨index, it, _, _, h⟩ <;> cases h
  refine ⟨?_, hnone, hclick, ?_, hkinds ua, ?_, ?_⟩
  · have h := congrArg (List.map EntryView.buttons) (productList_children_view state)
    simpa [List.map_map, Function.comp_def] using h
  · intro index
    rw [hclick index]
    rfl
  · intro item hmem
    exact hnoadd ua _ hmem item rfl
  · exact dispatchAll_cart_length _ state (hnoadd ua)

/-- Witness for C10: in a cart of two entries the Remove button of the first entry (position 9
of the rendered cart) dispatches `removeFromCart 1`, which falls under the third case. -/
theorem add_to_cart_button_dispatches_nothing_witness :
    Action.removeFromCart 1
        ∈ dispatchedBy Example.userService (Example.offline (List Product)) Example.state
            (.click .cart 9)
    ∧ ((∃ P, UserAction.click .cart 9 = .mount ∧ Action.removeFromCart 1 = .setProducts P)
        ∨ (∃ form U, UserAction.click .cart 9 = .submit form
            ∧ Action.removeFromCart 1 = .setUser U)
        ∨ (∃ index item, UserAction.click .cart 9 = .click .cart index
            ∧ item ∈ Example.state.cart.items ∧ Action.removeFromCart 1 = .removeFromCart item.id)) :=
  ⟨by decide,
   (add_to_cart_button_dispatches_nothing Example.userService (Example.offline (List Product))
      rootReducer Example.state (.click .cart 9)).2.2.2.2.1 (.removeFromCart 1) (by decide)⟩

end Storefront
